import Mathlib

/-!
Shallow embedding of the DM/Dameng database engine adapter
(`sql/engines/dm.py`, class `DmEngine`) and proofs about its
pagination policy (`filter_sql`), single-query executor (`query`),
syntax pre-check (`query_check`) and statement batch executor
(`execute`).

Backend-native primitives (`dmPython.connect`, `conn.cursor()`,
`cursor.execute`, `cursor.fetchall`, `cursor.close`, `conn.close`)
are modelled by explicit behaviour records: each field records what
the corresponding primitive does when the engine invokes it (returns
normally, returns a falsy handle, or raises with a message).  The
statement splitter `sqlparse.split` is an external library and is
passed in as a function parameter.
-/

namespace DmSpec

/-- Python whitespace for `str.strip` / the regex class `\s`
(space, tab, newline, carriage return, vertical tab, form feed). -/
def pyIsSpace (c : Char) : Bool :=
  c = ' ' || c = '\t' || c = '\n' || c = '\x0d' || c = '\x0b' || c = '\x0c'

/-- ASCII digit, the regex class `\d` on ASCII input. -/
def pyIsDigit (c : Char) : Bool :=
  '0' ≤ c && c ≤ '9'

/-- Python `str.strip()` on a character list: drop leading and trailing whitespace. -/
def pyStripL (cs : List Char) : List Char :=
  ((cs.dropWhile pyIsSpace).reverse.dropWhile pyIsSpace).reverse

/-- Python `str.strip()`: drop leading and trailing whitespace. -/
def pyStrip (s : String) : String :=
  String.mk (pyStripL s.toList)

/-- ASCII lowercasing of one character (`re.IGNORECASE` / `str.lower()`). -/
def lowerChar (c : Char) : Char :=
  if 'A' ≤ c && c ≤ 'Z' then Char.ofNat (c.toNat + 32) else c

/-! Matcher for the regex at dm.py line 94,
`(LIMIT\s+\d+|TOP\s+\d+|ROWNUM\s*(<|<=)\s*\d+|FETCH\s+FIRST\s+\d+\s+ROWS\s+ONLY|SELECT\s+TOP\s+\d+)`,
searched with `re.search(..., re.IGNORECASE)` (match at any position,
no word boundaries in the pattern).  Case-insensitivity is handled by
lowercasing the input; each alternative is a sequence of literal
words, `\s+`/`\s*`, `\d+` and `(<|<=)`, for which maximal-munch
matching is equivalent to backtracking because no literal begins with
a space or a digit. -/

/-- Match a literal character sequence, returning the rest of the input. -/
def matchLit : List Char → List Char → Option (List Char)
  | [], rest => some rest
  | _ :: _, [] => none
  | p :: ps, c :: cs => if c = p then matchLit ps cs else none

/-- Match `\s+`: at least one whitespace character, maximal munch. -/
def matchSpaces1 : List Char → Option (List Char)
  | [] => none
  | c :: cs => if pyIsSpace c then some (cs.dropWhile pyIsSpace) else none

/-- Match `\d+`: at least one digit, maximal munch. -/
def matchDigits1 : List Char → Option (List Char)
  | [] => none
  | c :: cs => if pyIsDigit c then some (cs.dropWhile pyIsDigit) else none

/-- The alternative `LIMIT\s+\d+` at the current position. -/
def altLimit (cs : List Char) : Bool :=
  (((matchLit "limit".toList cs).bind matchSpaces1).bind matchDigits1).isSome

/-- The alternative `TOP\s+\d+` at the current position. -/
def altTop (cs : List Char) : Bool :=
  (((matchLit "top".toList cs).bind matchSpaces1).bind matchDigits1).isSome

/-- The alternative `ROWNUM\s*(<|<=)\s*\d+` at the current position.
The ordered alternation `(<|<=)` with backtracking is equivalent to
matching `<` and then consuming an optional `=`. -/
def altRownum (cs : List Char) : Bool :=
  match matchLit "rownum".toList cs with
  | none => false
  | some r1 =>
    match r1.dropWhile pyIsSpace with
    | '<' :: r2 =>
      let r3 := match r2 with
        | '=' :: r => r
        | _ => r2
      (matchDigits1 (r3.dropWhile pyIsSpace)).isSome
    | _ => false

/-- The alternative `FETCH\s+FIRST\s+\d+\s+ROWS\s+ONLY` at the current position. -/
def altFetch (cs : List Char) : Bool :=
  ((((((((matchLit "fetch".toList cs).bind matchSpaces1).bind
      (matchLit "first".toList)).bind matchSpaces1).bind
      matchDigits1).bind matchSpaces1).bind
      (matchLit "rows".toList)).bind matchSpaces1).bind
      (matchLit "only".toList) |>.isSome

/-- The alternative `SELECT\s+TOP\s+\d+` at the current position. -/
def altSelectTop (cs : List Char) : Bool :=
  (((((matchLit "select".toList cs).bind matchSpaces1).bind
      (matchLit "top".toList)).bind matchSpaces1).bind matchDigits1).isSome

/-- Any alternative of the limit pattern, anchored at the current position. -/
def matchLimitAt (cs : List Char) : Bool :=
  altLimit cs || altTop cs || altRownum cs || altFetch cs || altSelectTop cs

/-- `re.search`: try the pattern at every position of the input. -/
def limitSearch : List Char → Bool
  | [] => false
  | c :: cs => matchLimitAt (c :: cs) || limitSearch cs

/-- Whether `re.search(limit_pattern, s, re.IGNORECASE)` finds a match
(no word boundaries: substrings of longer tokens also match). -/
def containsLimitPattern (cs : List Char) : Bool :=
  limitSearch (cs.map lowerChar)

/-- `DmEngine.filter_sql` (dm.py lines 85-97): strip the statement;
set `sql_to_check` to the statement with one trailing `;` removed and
re-stripped; when `limit_num > 0` and the limit pattern is not found
in `sql_to_check`, return `sql_to_check` with
` FETCH FIRST <limit_num> ROWS ONLY` appended; otherwise return the
stripped original. -/
def filter_sql (sql : String) (limit_num : Int) : String :=
  let sql_original := pyStripL sql.toList
  let sql_to_check :=
    match sql_original.reverse with
    | ';' :: rest => pyStripL rest.reverse
    | _ => sql_original
  if limit_num > 0 then
    (if containsLimitPattern sql_to_check then String.mk sql_original
     else String.mk sql_to_check ++ " FETCH FIRST " ++ toString limit_num ++ " ROWS ONLY")
  else String.mk sql_original


/-! Behaviour model of the backend primitives. -/

/-- Outcome of `DmEngine.get_connection` (dm.py lines 16-30): the
`dmPython.connect` call raises, returns a falsy handle, or returns a
live connection (an existing `self.conn` is returned unchanged, which
is also the `conn` case). -/
inductive ConnectOutcome where
  | raiseErr : String → ConnectOutcome
  | noConn : ConnectOutcome
  | conn : ConnectOutcome
deriving DecidableEq

/-- Outcome of one backend call that returns no data: normal return or raise. -/
inductive StepOutcome where
  | ok : StepOutcome
  | raiseErr : String → StepOutcome
deriving DecidableEq

/-- Outcome of `cursor.fetchall()`: a list of row tuples, or a raise. -/
inductive FetchOutcome where
  | ok : List (List String) → FetchOutcome
  | raiseErr : String → FetchOutcome
deriving DecidableEq

/-- The dictionary built by `DmEngine.query` (dm.py line 101). -/
structure QueryResult where
  column_list : List String
  rows : List (List String)
  effect_row : Int
  error : Option String
deriving DecidableEq

/-- Backend behaviour visible to one `DmEngine.query` call. -/
structure QueryBehavior where
  /-- What `get_connection` does. -/
  connect : ConnectOutcome
  /-- What `current_conn.cursor()` does. -/
  cursorCreate : StepOutcome
  /-- What `cursor.execute` does on the statement it is given. -/
  execStmt : String → StepOutcome
  /-- `cursor.description` after a successful execute (`none` = Python `None`). -/
  description : Option (List String)
  /-- What `cursor.fetchall()` does. -/
  fetchall : FetchOutcome
  /-- `cursor.rowcount` after the fetch (`none` = Python `None`). -/
  rowcount : Option Int

/-- Result of `DmEngine.query` together with the cursor lifecycle trace:
whether a cursor was opened, and whether `cursor.close()` was invoked
in the `finally` block. -/
structure QueryOut where
  result : QueryResult
  cursorOpened : Bool
  cursorCloseAttempted : Bool
deriving DecidableEq

/-- `DmEngine.query` (dm.py lines 99-133).  Acquire the connection,
rewrite the statement through `filter_sql`, open a cursor, execute,
capture column names when `cursor.description` is truthy, fetch rows
(swallowing any fetch exception), derive `effect_row` from
`cursor.rowcount` or the fetched row count, and report any other
exception as `error` with rows and columns left empty.  The `finally`
block always closes the cursor when one was opened. -/
def query (b : QueryBehavior) (sql : String) (limit_num : Int) (close_conn : Bool) : QueryOut :=
  match b.connect with
  | .raiseErr m => ⟨⟨[], [], 0, some ("Error: " ++ m)⟩, false, false⟩
  | .noConn => ⟨⟨[], [], 0, some "Failed to establish database connection."⟩, false, false⟩
  | .conn =>
    let actual_sql := filter_sql sql limit_num
    match b.cursorCreate with
    | .raiseErr m => ⟨⟨[], [], 0, some ("Error: " ++ m)⟩, false, false⟩
    | .ok =>
      match b.execStmt actual_sql with
      | .raiseErr m => ⟨⟨[], [], 0, some ("Error: " ++ m)⟩, true, true⟩
      | .ok =>
        let column_list :=
          match b.description with
          | some ds => if ds.isEmpty then [] else ds
          | none => []
        let rows :=
          match b.fetchall with
          | .ok rs => rs
          | .raiseErr _ => []
        let effect_row : Int :=
          match b.rowcount with
          | some rc =>
            if rc ≥ 0 then rc
            else if rows.isEmpty then 0 else (rows.length : Int)
          | none => if rows.isEmpty then 0 else (rows.length : Int)
        ⟨⟨column_list, rows, effect_row, none⟩, true, true⟩

/-- Backend behaviour visible to one `DmEngine.query_check` call. -/
structure CheckBehavior where
  /-- What `get_connection` does. -/
  connect : ConnectOutcome
  /-- What `conn.cursor()` does. -/
  cursorCreate : StepOutcome
  /-- What `cursor.close()` does. -/
  cursorClose : StepOutcome
deriving DecidableEq

/-- The dictionary built by `DmEngine.query_check` (dm.py line 35),
restricted to the fields the code writes. -/
structure CheckResult where
  status : Nat
  msg : String
  error : Option String
deriving DecidableEq

/-- Result of `DmEngine.query_check` together with the list of
statements submitted to `cursor.execute` during the call (the code
contains no execute call, so the list is built empty on every path). -/
structure CheckOut where
  result : CheckResult
  executed : List String
deriving DecidableEq

/-- `DmEngine.query_check` (dm.py lines 32-51).  Acquire a
connection; when it is truthy, open a cursor and, when the cursor is
truthy, close it; the supplied statement is never executed.  Any
exception is reported as `Syntax check failed: <message truncated to
200 characters>`; a falsy connection reports a fixed message. -/
def query_check (b : CheckBehavior) (sql : String) : CheckOut :=
  let errMsg : Option String :=
    match b.connect with
    | .raiseErr m => some ("Syntax check failed: " ++ String.mk (m.toList.take 200))
    | .noConn => some "Syntax check failed: Could not establish connection."
    | .conn =>
      match b.cursorCreate with
      | .raiseErr m => some ("Syntax check failed: " ++ String.mk (m.toList.take 200))
      | .ok =>
        match b.cursorClose with
        | .raiseErr m => some ("Syntax check failed: " ++ String.mk (m.toList.take 200))
        | .ok => none
  match errMsg with
  | some e => ⟨⟨1, e, some e⟩, []⟩
  | none => ⟨⟨0, "Syntax check successful.", none⟩, []⟩

/-! Batch executor. -/

/-- One element of `ReviewSet.rows` as `DmEngine.execute` builds it
(fields of `ReviewResult` the code writes; `affected_rows` defaults
to 0, as the tests of the repo pin for the records on which the
code leaves it unset). -/
structure ReviewResult where
  id : Nat
  errlevel : Nat
  sql : String
  errormessage : String
  stagestatus : String
  affected_rows : Int
deriving DecidableEq

/-- The `ReviewSet` returned by `DmEngine.execute`: per-statement
records, aggregate error count, and optional block-level error
(fresh instances start with empty rows, `error_count = 0` and
`error = None`, as pinned by `test_execute_empty_sql_string`). -/
structure ReviewSet where
  full_sql : String
  rows : List ReviewResult
  error_count : Nat
  error : Option String
deriving DecidableEq

/-- Backend behaviour of one attempted statement inside the batch
loop of `DmEngine.execute` (dm.py lines 806-831): `conn.cursor()`
raises; or the cursor opens and `cursor.execute` raises; or execute
succeeds with the given `cursor.rowcount` and `cursor.close()`
succeeds; or execute succeeds and `cursor.close()` raises. -/
inductive StmtOutcome where
  | cursorRaise : String → StmtOutcome
  | execRaise : String → StmtOutcome
  | okClose : Int → StmtOutcome
  | okCloseRaise : Int → String → StmtOutcome
deriving DecidableEq

/-- Backend behaviour visible to one `DmEngine.execute` call:
the connection outcome, the outcome of the k-th attempted statement
(0-based), and whether the final `conn.close()` succeeds. -/
structure ExecBehavior where
  connect : ConnectOutcome
  stmt : Nat → StmtOutcome
  closeConnOk : Bool
  closeErrMsg : String

/-- The `ReviewResult` the loop body leaves for one attempted
statement: on success `errlevel 0 / Execute Successfully` with
`affected_rows` from a non-negative `cursor.rowcount` (else 0); on
any exception caught by the inner `except` — cursor creation,
execute, or the in-`try` `cursor.close()` — `errlevel 2 /
Execute Failed` with the exception message. -/
def stmtReview (o : StmtOutcome) (idx : Nat) (ss : String) : ReviewResult :=
  match o with
  | .cursorRaise m => ⟨idx, 2, ss, m, "Execute Failed", 0⟩
  | .execRaise m => ⟨idx, 2, ss, m, "Execute Failed", 0⟩
  | .okClose rc => ⟨idx, 0, ss, "", "Execute Successfully", if rc ≥ 0 then rc else 0⟩
  | .okCloseRaise rc m => ⟨idx, 2, ss, m, "Execute Failed", if rc ≥ 0 then rc else 0⟩

/-- Whether the loop body increments `result.error_count` for this outcome. -/
def outcomeIsErr : StmtOutcome → Bool
  | .okClose _ => false
  | _ => true

/-- How many cursors this outcome opens (0 when `conn.cursor()` itself raises). -/
def stmtOpens : StmtOutcome → Nat
  | .cursorRaise _ => 0
  | _ => 1

/-- How many `cursor.close()` calls the loop body makes for this
outcome (the `except` branch contains no close, so a raising
`cursor.execute` leaves its cursor unclosed). -/
def stmtCloses : StmtOutcome → Nat
  | .okClose _ => 1
  | .okCloseRaise _ _ => 1
  | _ => 0

/-- The statements submitted to `cursor.execute` for this outcome
(none when `conn.cursor()` raises; an execute that raises was still
submitted). -/
def stmtExecuted (o : StmtOutcome) (ss : String) : List String :=
  match o with
  | .cursorRaise _ => []
  | _ => [ss]

/-- Accumulated outcome of the statement loop: review records, number
of `error_count` increments, statements submitted to the backend,
cursors opened, and `cursor.close()` calls made. -/
structure StmtsAcc where
  rows : List ReviewResult
  errs : Nat
  executed : List String
  opened : Nat
  closed : Nat
deriving DecidableEq

/-- The statement loop of `DmEngine.execute` (dm.py lines 798-832):
strip each fragment, skip empty ones, and process the k-th attempted
statement with 1-based id `n + 1` where `n` counts prior attempts. -/
def runStmts (b : ExecBehavior) : List String → Nat → StmtsAcc
  | [], _ => ⟨[], 0, [], 0, 0⟩
  | s :: rest, n =>
    let ss := pyStrip s
    if ss = "" then runStmts b rest n
    else
      let o := b.stmt n
      let tail := runStmts b rest (n + 1)
      ⟨stmtReview o (n + 1) ss :: tail.rows,
       (if outcomeIsErr o then 1 else 0) + tail.errs,
       stmtExecuted o ss ++ tail.executed,
       stmtOpens o + tail.opened,
       stmtCloses o + tail.closed⟩

/-- The effective statement list of `DmEngine.execute` (dm.py lines
794-796): `sqlparse.split(sql)`, falling back to `[sql]` when the
split is empty but the block is not whitespace-only, and to `[]`
otherwise. -/
def effStatements (split : String → List String) (sql : String) : List String :=
  let statements := split sql
  if statements = [] then (if pyStrip sql = "" then [] else [sql]) else statements

/-- Result of `DmEngine.execute` together with its backend trace. -/
structure ExecOut where
  rs : ReviewSet
  executed : List String
  opened : Nat
  closed : Nat

/-- `DmEngine.execute` (dm.py lines 783-864).  A raising
`get_connection` is caught by the outer `except`: the block-level
error is set to the message, `error_count` becomes 1 and a single
`errlevel 2` record for the whole block is appended; a falsy
connection produces the same shape with a fixed message; in both
cases no statement is attempted and the `finally` close is skipped
(the local `conn` is falsy).  Otherwise the split statements run in
order through `runStmts`, and the `finally` block closes the
connection when `close_conn` is set: a raising `conn.close()` is
logged and, when no error is already recorded, surfaces as the
block-level error, bumping a zero `error_count` to 1. -/
def execute (b : ExecBehavior) (split : String → List String) (sql : String)
    (close_conn : Bool) : ExecOut :=
  match b.connect with
  | .raiseErr m =>
    ⟨⟨sql, [⟨1, 2, sql, m, "Execute Failed", 0⟩], 1, some m⟩, [], 0, 0⟩
  | .noConn =>
    ⟨⟨sql, [⟨1, 2, sql, "Failed to establish database connection.", "Execute Failed", 0⟩],
      1, some "Failed to establish database connection."⟩, [], 0, 0⟩
  | .conn =>
    let acc := runStmts b (effStatements split sql) 0
    let rs0 : ReviewSet := ⟨sql, acc.rows, acc.errs, none⟩
    let rs :=
      if close_conn && !b.closeConnOk then
        (if rs0.error = none then
          { rs0 with
            error := some b.closeErrMsg,
            error_count := if rs0.error_count = 0 then 1 else rs0.error_count }
         else rs0)
      else rs0
    ⟨rs, acc.executed, acc.opened, acc.closed⟩

/-! Helper lemmas about the statement loop. -/

/-- The loop appends exactly one review record per statement whose
stripped text is non-empty. -/
theorem runStmts_rows_length (b : ExecBehavior) (stmts : List String) (n : Nat) :
    (runStmts b stmts n).rows.length
      = (stmts.filter (fun s => pyStrip s != "")).length := by
  induction stmts generalizing n with
  | nil => rfl
  | cons s rest ih =>
    by_cases h : pyStrip s = ""
    · simp [runStmts, h, ih]
    · simp [runStmts, h, ih]

/-- A record carries `errlevel = 2` exactly when its outcome counts
as an error for `error_count`. -/
theorem stmtReview_errlevel (o : StmtOutcome) (idx : Nat) (ss : String) :
    ((stmtReview o idx ss).errlevel == 2) = outcomeIsErr o := by
  cases o <;> rfl

/-- The `error_count` contribution of the loop equals the number of
`errlevel = 2` records it appends. -/
theorem runStmts_errs (b : ExecBehavior) (stmts : List String) (n : Nat) :
    (runStmts b stmts n).errs
      = ((runStmts b stmts n).rows.filter (fun r => r.errlevel == 2)).length := by
  induction stmts generalizing n with
  | nil => rfl
  | cons s rest ih =>
    by_cases h : pyStrip s = ""
    · simp [runStmts, h, ih]
    · rcases he : outcomeIsErr (b.stmt n) with _ | _ <;>
        simp [runStmts, h, List.filter_cons, stmtReview_errlevel, he, ih, Nat.add_comm]

/-- A loop over fragments that all strip to the empty string does nothing. -/
theorem runStmts_blank (b : ExecBehavior) (stmts : List String) (n : Nat)
    (h : ∀ s ∈ stmts, pyStrip s = "") :
    runStmts b stmts n = ⟨[], 0, [], 0, 0⟩ := by
  induction stmts generalizing n with
  | nil => rfl
  | cons s rest ih =>
    have hs : pyStrip s = "" := h s (by simp)
    have hrest : ∀ t ∈ rest, pyStrip t = "" := fun t ht => h t (List.mem_cons_of_mem s ht)
    simpa [runStmts, hs] using ih n hrest

/-- When every attempted statement succeeds (cursor opens, execute
returns, cursor closes), the loop makes no `error_count` increment. -/
theorem runStmts_errs_zero (b : ExecBehavior) (stmts : List String) (n : Nat)
    (h : ∀ k, outcomeIsErr (b.stmt k) = false) :
    (runStmts b stmts n).errs = 0 := by
  induction stmts generalizing n with
  | nil => rfl
  | cons s rest ih =>
    by_cases hs : pyStrip s = ""
    · simp [runStmts, hs, ih]
    · simp [runStmts, hs, h n, ih]

/-! Claim theorems. -/

/-- Claim C2 (code bug): the comment above the regex in `filter_sql`
says word boundaries are used "to avoid matching parts of words", and
the spec demands whole-token matching, but the pattern has no `\b`:
a limiting construct occurring as a substring of a longer token
(`limit 5` inside `sublimit 5`) suppresses the appended clause, while
the plain statement of Scenario A gets the clause as specified. -/
theorem filter_sql_substring_match_bug :
    filter_sql "select sublimit 5 from t" 10 = "select sublimit 5 from t"
    ∧ filter_sql "select * from t" 10 = "select * from t FETCH FIRST 10 ROWS ONLY" := by
  decide

/-- Claim C5 counterexample: for `limit_num = 0` the code still strips
the statement, so it is not the identity character for character. -/
theorem filter_sql_noop_cex : ¬ (filter_sql " select 1" 0 = " select 1") := by decide

/-- Claim C5 (amended): for every `limit_num ≤ 0`, `filter_sql`
returns the input stripped of leading and trailing whitespace — the
identity exactly on inputs with no outer whitespace. -/
theorem filter_sql_nonpositive_strip (sql : String) (limit_num : Int)
    (h : limit_num ≤ 0) :
    filter_sql sql limit_num = pyStrip sql := by
  have h1 : ¬ limit_num > 0 := by omega
  simp [filter_sql, h1, pyStrip]

/-- Witness for `filter_sql_nonpositive_strip` at `limit_num = -5`. -/
theorem filter_sql_nonpositive_strip_witness :
    filter_sql "select 1" (-5) = pyStrip "select 1" :=
  filter_sql_nonpositive_strip "select 1" (-5) (by omega)

/-- Claim C3: `DmEngine.query` never returns a mixed-success state —
whenever `error` is set, `rows` and `column_list` are empty — and a
raising connection acquisition yields exactly
`{error: "Error: <message>", rows: [], column_list: []}`. -/
theorem query_no_partial_success (b : QueryBehavior) (sql : String) (ln : Int)
    (cc : Bool) :
    ((query b sql ln cc).result.error ≠ none →
      (query b sql ln cc).result.rows = []
      ∧ (query b sql ln cc).result.column_list = [])
    ∧ (∀ m, b.connect = .raiseErr m →
        (query b sql ln cc).result = ⟨[], [], 0, some ("Error: " ++ m)⟩) := by
  rcases b with ⟨conn, cur, ex, desc, fetch, rc⟩
  cases conn with
  | raiseErr m => simp [query]
  | noConn => simp [query]
  | conn =>
    cases cur with
    | raiseErr m => simp [query]
    | ok =>
      cases hex : ex (filter_sql sql ln) with
      | raiseErr m => simp [query, hex]
      | ok => simp [query, hex]

/-- Witness for `query_no_partial_success`: a backend whose connect
raises with message `boom`. -/
def bC3 : QueryBehavior :=
  ⟨.raiseErr "boom", .ok, fun _ => .ok, none, .ok [], none⟩

/-- Witness applying `query_no_partial_success` to `bC3`. -/
theorem query_no_partial_success_witness :
    (query bC3 "select 1" 0 true).result = ⟨[], [], 0, some "Error: boom"⟩ :=
  (query_no_partial_success bC3 "select 1" 0 true).2 "boom" rfl

/-- Claim C10: an exception from `cursor.fetchall` after a successful
`cursor.execute` is swallowed (`except Exception: pass`): the result
has `error = None` and `rows = []`, identical to the result of the
same backend legitimately returning zero rows. -/
theorem query_fetch_error_swallowed (b : QueryBehavior) (sql : String) (ln : Int)
    (cc : Bool) (m : String) (hc : b.connect = .conn) (hcur : b.cursorCreate = .ok)
    (hex : b.execStmt (filter_sql sql ln) = .ok) (hf : b.fetchall = .raiseErr m) :
    (query b sql ln cc).result.error = none
    ∧ (query b sql ln cc).result.rows = []
    ∧ query b sql ln cc = query { b with fetchall := .ok [] } sql ln cc := by
  rcases b with ⟨conn, cur, ex, desc, fetch, rc⟩
  dsimp only at hc hcur hex hf
  subst hc; subst hcur; subst hf
  simp [query, hex]

/-- Witness behaviour for `query_fetch_error_swallowed`. -/
def bC10 : QueryBehavior :=
  ⟨.conn, .ok, fun _ => .ok, some ["id"], .raiseErr "socket closed mid-fetch", some (-1)⟩

/-- Witness applying `query_fetch_error_swallowed` to `bC10`. -/
theorem query_fetch_error_swallowed_witness :
    (query bC10 "select id from t" 0 true).result.error = none
    ∧ (query bC10 "select id from t" 0 true).result.rows = []
    ∧ query bC10 "select id from t" 0 true
      = query { bC10 with fetchall := .ok [] } "select id from t" 0 true :=
  query_fetch_error_swallowed bC10 "select id from t" 0 true
    "socket closed mid-fetch" rfl rfl rfl rfl

/-- Claim C9 counterexample: a backend whose connection and cursor
creation succeed but whose `cursor.close()` raises is reported as a
failed check, so "success exactly when connection and cursor creation
succeed" is false. -/
def bC9 : CheckBehavior := ⟨.conn, .ok, .raiseErr "network reset during close"⟩

/-- Counterexample for claim C9 as stated. -/
theorem query_check_reachability_cex :
    ¬ ((query_check bC9 "select 1").result.status = 0 ↔
        (bC9.connect = .conn ∧ bC9.cursorCreate = .ok)) := by decide

/-- Claim C9 (amended): `query_check` never submits the supplied
statement to the backend and its result is independent of the `sql`
argument; it reports success exactly when connection acquisition,
cursor creation and cursor close all succeed. -/
theorem query_check_sql_independent_reachability (b : CheckBehavior)
    (sql1 sql2 : String) :
    query_check b sql1 = query_check b sql2
    ∧ (query_check b sql1).executed = []
    ∧ ((query_check b sql1).result.status = 0 ↔
        (b.connect = .conn ∧ b.cursorCreate = .ok ∧ b.cursorClose = .ok)) := by
  rcases b with ⟨conn, cur, cl⟩
  cases conn <;> cases cur <;> cases cl <;> simp [query_check]

/-- Witness behaviour for `query_check_sql_independent_reachability`:
a healthy backend. -/
def bC9w : CheckBehavior := ⟨.conn, .ok, .ok⟩

/-- Witness applying `query_check_sql_independent_reachability` to
`bC9w` on two different statements. -/
theorem query_check_sql_independent_reachability_witness :
    query_check bC9w "select 1" = query_check bC9w "drop table t"
    ∧ (query_check bC9w "select 1").executed = []
    ∧ ((query_check bC9w "select 1").result.status = 0 ↔
        (bC9w.connect = .conn ∧ bC9w.cursorCreate = .ok ∧ bC9w.cursorClose = .ok)) :=
  query_check_sql_independent_reachability bC9w "select 1" "drop table t"

/-- Claim C1 counterexample: one successful statement followed by a
raising final `conn.close()` leaves `error_count = 1` with no
`errlevel 2` record, so the count invariant fails on the
connection-close path. -/
def bC1 : ExecBehavior := ⟨.conn, fun _ => .okClose 1, false, "close failed"⟩

/-- Counterexample for claim C1 as stated. -/
theorem execute_count_invariant_cex :
    ¬ ((execute bC1 (fun s => [s]) "INSERT INTO t VALUES (1)" true).rs.error_count
      = ((execute bC1 (fun s => [s]) "INSERT INTO t VALUES (1)" true).rs.rows.filter
          (fun r => r.errlevel == 2)).length) := by decide

/-- Claim C1 (amended): on every path where the connection is
acquired and the final close either is not requested or succeeds,
the ReviewSet has one record per non-empty split statement and
`error_count` equals the number of `errlevel 2` records. -/
theorem execute_count_invariant (b : ExecBehavior) (split : String → List String)
    (sql : String) (cc : Bool) (hconn : b.connect = .conn)
    (hclose : cc = false ∨ b.closeConnOk = true) :
    (execute b split sql cc).rs.rows.length
      = ((effStatements split sql).filter (fun s => pyStrip s != "")).length
    ∧ (execute b split sql cc).rs.error_count
      = ((execute b split sql cc).rs.rows.filter (fun r => r.errlevel == 2)).length := by
  have hc : (cc && !b.closeConnOk) = false := by
    rcases hclose with h | h <;> simp [h]
  simp only [execute, hconn, hc, Bool.false_eq_true, if_false]
  exact ⟨runStmts_rows_length b (effStatements split sql) 0,
    runStmts_errs b (effStatements split sql) 0⟩

/-- Witness behaviour for `execute_count_invariant`: first statement
succeeds, second raises. -/
def bC1w : ExecBehavior :=
  ⟨.conn, fun k => if k = 0 then .okClose 0 else .execRaise "syntax error", true, ""⟩

/-- Witness split for `execute_count_invariant` (the sqlparse.split
of the two-statement block). -/
def splitC1w : String → List String :=
  fun _ => ["CREATE TABLE t (id INT);", "BAD SQL;"]

/-- Witness applying `execute_count_invariant` to `bC1w`. -/
theorem execute_count_invariant_witness :
    (execute bC1w splitC1w "CREATE TABLE t (id INT); BAD SQL;" true).rs.rows.length
      = ((effStatements splitC1w "CREATE TABLE t (id INT); BAD SQL;").filter
          (fun s => pyStrip s != "")).length
    ∧ (execute bC1w splitC1w "CREATE TABLE t (id INT); BAD SQL;" true).rs.error_count
      = ((execute bC1w splitC1w "CREATE TABLE t (id INT); BAD SQL;" true).rs.rows.filter
          (fun r => r.errlevel == 2)).length :=
  execute_count_invariant bC1w splitC1w "CREATE TABLE t (id INT); BAD SQL;" true
    rfl (Or.inr rfl)

/-- Claim C4: when the connection cannot be acquired (the acquisition
raises or yields a falsy handle), the batch fails atomically: exactly
one `errlevel 2` record carrying the connection error, `error_count`
1, the block-level error set to the same message, and no statement
submitted to the backend (no cursor even opened). -/
theorem execute_connection_failure_atomic (b : ExecBehavior)
    (split : String → List String) (sql : String) (cc : Bool)
    (h : b.connect ≠ .conn) :
    ∃ msg, (execute b split sql cc).rs.rows = [⟨1, 2, sql, msg, "Execute Failed", 0⟩]
      ∧ (execute b split sql cc).rs.error_count = 1
      ∧ (execute b split sql cc).rs.error = some msg
      ∧ (execute b split sql cc).executed = []
      ∧ (execute b split sql cc).opened = 0 := by
  rcases hb : b.connect with m | _ | _
  · exact ⟨m, by simp [execute, hb]⟩
  · exact ⟨"Failed to establish database connection.", by simp [execute, hb]⟩
  · exact absurd hb h

/-- Witness behaviour for `execute_connection_failure_atomic`. -/
def bC4 : ExecBehavior := ⟨.raiseErr "login denied", fun _ => .okClose 0, true, ""⟩

/-- Witness applying `execute_connection_failure_atomic` to `bC4`. -/
theorem execute_connection_failure_atomic_witness :
    ∃ msg, (execute bC4 (fun s => [s]) "SELECT 1;" true).rs.rows
        = [⟨1, 2, "SELECT 1;", msg, "Execute Failed", 0⟩]
      ∧ (execute bC4 (fun s => [s]) "SELECT 1;" true).rs.error_count = 1
      ∧ (execute bC4 (fun s => [s]) "SELECT 1;" true).rs.error = some msg
      ∧ (execute bC4 (fun s => [s]) "SELECT 1;" true).executed = []
      ∧ (execute bC4 (fun s => [s]) "SELECT 1;" true).opened = 0 :=
  execute_connection_failure_atomic bC4 (fun s => [s]) "SELECT 1;" true (by decide)

/-- Claim C6 (code bug): behaviour taken from the test
`test_execute_multiple_statements_one_failure` of the repo — three
statements, where `cursor.execute` raises on the second.  The code
opens three cursors but calls `cursor.close()` only twice: the
per-statement `except` branch (dm.py lines 826-831) contains no
close, so the cursor of the failing statement is never closed,
although the test asserts three closes. -/
def bC6 : ExecBehavior :=
  ⟨.conn, fun k => if k = 1 then .execRaise "Syntax error near INVALID" else .okClose 0,
   true, ""⟩

/-- The fragments `sqlparse.split` produces for the test batch. -/
def splitC6 : String → List String :=
  fun _ => ["CREATE TABLE table1 (id INT);", "INVALID SQL;", "INSERT INTO table1 VALUES (1);"]

/-- Claim C6 (code bug), evaluated at the failing input: three
cursors are opened but only two `cursor.close()` calls are made, so
not every cursor is closed on every exit path. -/
theorem execute_cursor_leak_on_failure :
    (execute bC6 splitC6
        "CREATE TABLE table1 (id INT); INVALID SQL; INSERT INTO table1 VALUES (1);"
        true).opened = 3
    ∧ (execute bC6 splitC6
        "CREATE TABLE table1 (id INT); INVALID SQL; INSERT INTO table1 VALUES (1);"
        true).closed = 2 := by decide

/-- Claim C7: an empty or whitespace-only batch (splitting yields no
non-empty fragment) returns `rows = []`, `error_count = 0`,
`error = None` — "nothing to do", not failure (the connection is
still acquired and, when requested, closed). -/
theorem execute_empty_batch (b : ExecBehavior) (split : String → List String)
    (sql : String) (cc : Bool) (hconn : b.connect = .conn)
    (hsql : pyStrip sql = "") (hsplit : ∀ s ∈ split sql, pyStrip s = "")
    (hclose : cc = false ∨ b.closeConnOk = true) :
    (execute b split sql cc).rs = ⟨sql, [], 0, none⟩ := by
  have hc : (cc && !b.closeConnOk) = false := by
    rcases hclose with h | h <;> simp [h]
  have heff : runStmts b (effStatements split sql) 0 = ⟨[], 0, [], 0, 0⟩ := by
    apply runStmts_blank
    intro s hs
    unfold effStatements at hs
    by_cases h0 : split sql = []
    · simp [h0, hsql] at hs
    · simp only [h0, if_false] at hs
      exact hsplit s hs
  simp [execute, hconn, hc, heff]

/-- Witness behaviour for `execute_empty_batch`. -/
def bC7 : ExecBehavior := ⟨.conn, fun _ => .okClose 0, true, ""⟩

/-- Witness applying `execute_empty_batch` to a whitespace-only block. -/
theorem execute_empty_batch_witness :
    (execute bC7 (fun _ => []) "   " true).rs = ⟨"   ", [], 0, none⟩ :=
  execute_empty_batch bC7 (fun _ => []) "   " true rfl (by decide)
    (by intro s hs; simp at hs) (Or.inr rfl)

/-- Claim C8 counterexample: a batch whose single statement succeeds
but whose final `conn.close()` raises does not keep
`error = None, error_count = 0`: the close error surfaces. -/
def bC8 : ExecBehavior := ⟨.conn, fun _ => .okClose 1, false, "connection close refused"⟩

/-- Counterexample for claim C8 as stated. -/
theorem execute_close_error_cex :
    ¬ ((execute bC8 (fun s => [s]) "INSERT INTO t VALUES (1)" true).rs.error = none
      ∧ (execute bC8 (fun s => [s]) "INSERT INTO t VALUES (1)" true).rs.error_count = 0) := by
  decide

/-- Claim C8 (amended): when every statement of the batch executed
successfully and the requested final `conn.close()` raises, the close
error is logged and surfaces in the returned ReviewSet: `error` is
set to the close message and `error_count` to 1 (the code only
refrains from overwriting an already-present block-level error). -/
theorem execute_close_error_surfaces (b : ExecBehavior)
    (split : String → List String) (sql : String) (hconn : b.connect = .conn)
    (hok : ∀ k, outcomeIsErr (b.stmt k) = false) (hclose : b.closeConnOk = false) :
    (execute b split sql true).rs.error = some b.closeErrMsg
    ∧ (execute b split sql true).rs.error_count = 1 := by
  have herrs := runStmts_errs_zero b (effStatements split sql) 0 hok
  simp [execute, hconn, hclose, herrs]

/-- Witness behaviour for `execute_close_error_surfaces`. -/
def bC8w : ExecBehavior := ⟨.conn, fun _ => .okClose 2, false, "close timed out"⟩

/-- Witness applying `execute_close_error_surfaces` to `bC8w`. -/
theorem execute_close_error_surfaces_witness :
    (execute bC8w (fun s => [s]) "UPDATE t SET a = 1" true).rs.error
        = some bC8w.closeErrMsg
    ∧ (execute bC8w (fun s => [s]) "UPDATE t SET a = 1" true).rs.error_count = 1 :=
  execute_close_error_surfaces bC8w (fun s => [s]) "UPDATE t SET a = 1" rfl
    (fun k => rfl) rfl

end DmSpec
